import Mathlib

/-!
Verification of the gin/zap middleware pair in src/main.go: the request
logger GinLogger (lines 172-191) and the recovery middleware GinRecovery
(lines 194-238), together with their composition in mainDemo4 (lines
155-164), which registers them as r.Use(GinLogger(logger),
GinRecovery(logger, true)).

The embedding models one request flowing through the middleware chain.
A middleware is a function from a downstream handler to a handler; a
handler takes the per-request context and either returns normally with an
updated context or raises a Go panic value.  Log emission is modelled by
threading the list of emitted entries through the run.
-/

/-- Go panic values as far as the code inspects them.  GinRecovery (lines
201-207) checks, via type assertions, whether the recovered value is a
net.OpError whose Err field is an os.SyscallError.  The syscallError
constructor carries the string returned by its Error() method.  The
opError constructor does not model the Op/Net/Addr fields of net.OpError
(nothing in the program reads them); strVal is a non-error panic value;
errorValue is any other value implementing error, carrying its message. -/
inductive GoValue where
  | opError (inner : GoValue)
  | syscallError (msg : String)
  | strVal (s : String)
  | errorValue (msg : String)
deriving Repr, DecidableEq

/-- Model of Go strings.Contains restricted to list-of-char form:
charsMatch pat cs is true when pat is an initial segment of cs. -/
def charsMatch : List Char → List Char → Bool
  | [], _ => true
  | _ :: _, [] => false
  | p :: ps, c :: cs => p == c && charsMatch ps cs

/-- charsHave pat cs is true when pat occurs contiguously inside cs
(Go strings.Contains on the underlying characters). -/
def charsHave (pat : List Char) : List Char → Bool
  | [] => charsMatch pat []
  | c :: cs => charsMatch pat (c :: cs) || charsHave pat cs

/-- Model of strings.Contains(strings.ToLower(s), pat): ASCII case folding
of s followed by substring search for pat (the program only searches for
the all-lowercase ASCII patterns of line 203). -/
def containsLower (s pat : String) : Bool :=
  charsHave pat.toList (s.toList.map Char.toLower)

/-- Embedding of lines 200-207 of GinRecovery: the recovered value is a
broken-connection fault exactly when it is a net.OpError whose Err is an
os.SyscallError whose Error() string, lowercased, contains "broken pipe"
or "connection reset by peer". -/
def isBrokenPipe : GoValue → Bool
  | GoValue.opError (GoValue.syscallError msg) =>
      containsLower msg "broken pipe" || containsLower msg "connection reset by peer"
  | _ => false

/-- Fault classification from the spec's taxonomy, computed exactly as the
brokenPipe flag of GinRecovery decides it. -/
inductive Classification where
  | brokenConnection
  | generic
deriving Repr, DecidableEq

/-- classify applies the code's brokenPipe test (lines 200-207). -/
def classify (v : GoValue) : Classification :=
  if isBrokenPipe v then Classification.brokenConnection else Classification.generic

/-- Levels of zap log entries used by the program. -/
inductive Level where
  | debug
  | info
  | error
deriving Repr, DecidableEq

/-- Values of zap fields used by the program: zap.String, zap.Int,
zap.Duration (nanosecond count) and zap.Any. -/
inductive FieldValue where
  | str (s : String)
  | int (n : Int)
  | dur (d : Int)
  | any (v : GoValue)
deriving Repr, DecidableEq

/-- One zap field: a name/value pair. -/
structure ZapField where
  name : String
  value : FieldValue
deriving Repr, DecidableEq

/-- One emitted zap entry: level, message, ordered fields. -/
structure LogEntry where
  level : Level
  message : String
  fields : List ZapField
deriving Repr, DecidableEq

/-- Per-request state visible to the two middlewares: the request data
read by them (method, URL path, raw query, user agent, client IP, and the
result of httputil.DumpRequest - none models a dump error, in which case
the Go code receives nil bytes), the monotonic clock reading now (time.Now
/ time.Since), and the response/context state: the writer status
(c.Writer.Status(), 200 before anything is written), whether a status
line was written (WriteHeaderNow), the body chunks written, the gin error
list c.Errors (all attached via c.Error, hence private-typed), and the
aborted flag of the gin context. -/
structure Context where
  method : String
  path : String
  rawQuery : String
  userAgent : String
  clientIP : String
  dump : Option String
  now : Int
  status : Int
  statusWritten : Bool
  body : List String
  errors : List GoValue
  aborted : Bool
deriving Repr, DecidableEq

/-- Result of running a handler on a context: normal return with the
updated context, or a panic carrying the raised value and the context
state at the moment of the panic. -/
inductive Outcome where
  | ok (c : Context)
  | panicked (v : GoValue) (c : Context)
deriving Repr, DecidableEq

/-- A handler maps the request context to an outcome plus the log entries
it emitted, in order. -/
def Handler : Type := Context → Outcome × List LogEntry

/-- Model of gin ErrorMsgs.String index formatting "%02d". -/
def errorNum (i : Nat) : String :=
  if i < 10 then "0" ++ toString i else toString i

/-- Error() message of a modelled Go value (opError delegates to its
inner error; the unmodelled Op/Net/Addr prefix is dropped). -/
def goErrorMsg : GoValue → String
  | GoValue.opError inner => goErrorMsg inner
  | GoValue.syscallError m => m
  | GoValue.strVal s => s
  | GoValue.errorValue m => m

/-- Model of c.Errors.ByType(gin.ErrorTypePrivate).String() as read on
line 187: every error in the modelled list was attached by c.Error and is
private-typed, and gin renders the empty list as the empty string and
otherwise one numbered line per error. -/
def errorsPrivateString (es : List GoValue) : String :=
  String.join (((List.range es.length).zip es).map
    (fun p => "Error #" ++ errorNum (p.1 + 1) ++ ": " ++ goErrorMsg p.2 ++ "\n"))

/-- The info entry GinLogger emits on line 180-189: message is the path
captured before c.Next(); status, method, ip, user-agent and errors are
read from the context after downstream returned; path and query are the
values captured before; cost is time.Since(start). -/
def ginLoggerEntry (path query : String) (c : Context) (cost : Int) : LogEntry :=
  { level := Level.info
    message := path
    fields := [
      { name := "status", value := FieldValue.int c.status },
      { name := "method", value := FieldValue.str c.method },
      { name := "path", value := FieldValue.str path },
      { name := "query", value := FieldValue.str query },
      { name := "ip", value := FieldValue.str c.clientIP },
      { name := "user-agent", value := FieldValue.str c.userAgent },
      { name := "errors", value := FieldValue.str (errorsPrivateString c.errors) },
      { name := "cost", value := FieldValue.dur cost } ] }

/-- Embedding of GinLogger (lines 172-191): capture start time, path and
query, invoke downstream; if downstream returns normally, emit exactly
one info entry; if downstream panics, the code after c.Next() never runs
and the panic propagates with no entry emitted. -/
def GinLogger (next : Handler) : Handler := fun c =>
  let start := c.now
  let path := c.path
  let query := c.rawQuery
  match next c with
  | (Outcome.ok c', logs) =>
      (Outcome.ok c', logs ++ [ginLoggerEntry path query c' (c'.now - start)])
  | (Outcome.panicked v c', logs) => (Outcome.panicked v c', logs)

/-- http.StatusInternalServerError. -/
def StatusInternalServerError : Int := 500

/-- The error entry of the brokenPipe branch (lines 211-214): message is
the request path, fields are the raised value and the dumped request. -/
def brokenEntry (path : String) (v : GoValue) (snapshot : String) : LogEntry :=
  { level := Level.error
    message := path
    fields := [
      { name := "error", value := FieldValue.any v },
      { name := "request", value := FieldValue.str snapshot } ] }

/-- The error entry of the generic branch (lines 221-232): message
"[Recovery from panic]", fields error and request, plus stack (the
debug.Stack() dump) exactly when the stack flag was passed. -/
def genericEntry (v : GoValue) (snapshot : String) (stack : Bool) (trace : String) : LogEntry :=
  { level := Level.error
    message := "[Recovery from panic]"
    fields :=
      if stack then [
        { name := "error", value := FieldValue.any v },
        { name := "request", value := FieldValue.str snapshot },
        { name := "stack", value := FieldValue.str trace } ]
      else [
        { name := "error", value := FieldValue.any v },
        { name := "request", value := FieldValue.str snapshot } ] }

/-- Body of the deferred recover block of GinRecovery (lines 197-234),
applied to the recovered value v and the context state at panic time.
httpRequest is the DumpRequest result with the error ignored (nil bytes,
i.e. the empty string, when the dump failed).  brokenPipe: log, append
the value to c.Errors (c.Error), abort without writing a status.
Otherwise: log (with the stack field iff the stack flag is set) and
c.AbortWithStatus(500), which writes the status line and no body. -/
def recoverStep (stack : Bool) (trace : String) (v : GoValue) (c : Context) :
    Context × List LogEntry :=
  let brokenPipe := isBrokenPipe v
  let httpRequest := c.dump.getD ""
  if brokenPipe then
    ({ c with errors := c.errors ++ [v], aborted := true },
     [brokenEntry c.path v httpRequest])
  else
    ({ c with status := StatusInternalServerError, statusWritten := true, aborted := true },
     [genericEntry v httpRequest stack trace])

/-- Embedding of GinRecovery (lines 194-238): install the deferred
recover guard, invoke downstream; a normal return passes through
untouched, a panic is absorbed by recoverStep and the middleware returns
normally. -/
def GinRecovery (stack : Bool) (trace : String) (next : Handler) : Handler := fun c =>
  match next c with
  | (Outcome.ok c', logs) => (Outcome.ok c', logs)
  | (Outcome.panicked v c', logs) =>
      let r := recoverStep stack trace v c'
      (Outcome.ok r.1, logs ++ r.2)

/-- The middleware chain as registered by mainDemo4 line 159:
r.Use(GinLogger(logger), GinRecovery(logger, true)).  Gin runs the
middlewares in registration order, each one's c.Next() invoking the rest,
so GinLogger is the outer wrapper and GinRecovery (with stack = true) the
inner one; trace stands for the debug.Stack() output. -/
def mainDemo4Chain (trace : String) (h : Handler) : Handler :=
  GinLogger (GinRecovery true trace h)

/-- The same chain with the stack flag left as a parameter, for
properties about both configurations. -/
def useChain (stack : Bool) (trace : String) (h : Handler) : Handler :=
  GinLogger (GinRecovery stack trace h)

/-- The hello handler registered on line 160-162: c.String(200, "hello!")
sets the status and writes the body. -/
def helloHandler : Handler := fun c =>
  (Outcome.ok { c with status := 200, statusWritten := true, body := c.body ++ ["hello!"] },
   [])

/-- The gin serving loop over a list of incoming requests: each request
runs the full chain; a panic escaping the chain would crash the goroutine
and, unrecovered, the process, so the remaining requests are dropped in
that case. -/
def serveAll (h : Handler) : List Context → List (Context × List LogEntry)
  | [] => []
  | c :: cs =>
      match h c with
      | (Outcome.ok c', logs) => (c', logs) :: serveAll h cs
      | (Outcome.panicked _ _, _) => []

/-! Concrete request data and handlers used by the witnesses. -/

/-- A handler that panics with the non-error value "boom" (a Generic
fault), leaving the context untouched. -/
def panicBoom : Handler := fun c => (Outcome.panicked (GoValue.strVal "boom") c, [])

/-- A handler that panics with a net.OpError wrapping an os.SyscallError
whose message reports a broken pipe. -/
def panicPipe : Handler := fun c =>
  (Outcome.panicked (GoValue.opError (GoValue.syscallError "write: broken pipe")) c, [])

/-- A concrete incoming GET /hello request context. -/
def ctx0 : Context :=
  { method := "GET", path := "/hello", rawQuery := "a=1", userAgent := "curl",
    clientIP := "127.0.0.1", dump := some "GET /hello HTTP/1.1", now := 10,
    status := 200, statusWritten := false, body := [], errors := [], aborted := false }

/-- The same request with a failing DumpRequest. -/
def ctxNoDump : Context := { ctx0 with dump := none }

/-! Helper lemmas shared by the claim theorems. -/

/-- Characterisation of the brokenPipe test of lines 200-207. -/
theorem isBrokenPipe_iff (v : GoValue) :
    isBrokenPipe v = true ↔
      ∃ msg, v = GoValue.opError (GoValue.syscallError msg) ∧
        (containsLower msg "broken pipe" = true ∨
         containsLower msg "connection reset by peer" = true) := by
  cases v with
  | opError inner =>
      cases inner with
      | opError i => simp [isBrokenPipe]
      | syscallError msg => simp [isBrokenPipe, Bool.or_eq_true]
      | strVal s => simp [isBrokenPipe]
      | errorValue m => simp [isBrokenPipe]
  | syscallError msg => simp [isBrokenPipe]
  | strVal s => simp [isBrokenPipe]
  | errorValue m => simp [isBrokenPipe]

/-- classify yields brokenConnection exactly when the brokenPipe flag is set. -/
theorem classify_eq_broken (v : GoValue) :
    classify v = Classification.brokenConnection ↔ isBrokenPipe v = true := by
  unfold classify
  cases h : isBrokenPipe v <;> simp [h]

/-- classify yields generic exactly when the brokenPipe flag is clear. -/
theorem classify_eq_generic (v : GoValue) :
    classify v = Classification.generic ↔ isBrokenPipe v = false := by
  unfold classify
  cases h : isBrokenPipe v <;> simp [h]

/-- Running GinRecovery over a downstream that panics reduces to
recoverStep on the panic-time context. -/
theorem ginRecovery_panic_run (stack : Bool) (trace : String) (h : Handler)
    (c c' : Context) (v : GoValue) (hlogs : List LogEntry)
    (hrun : h c = (Outcome.panicked v c', hlogs)) :
    GinRecovery stack trace h c =
      (Outcome.ok (recoverStep stack trace v c').1,
       hlogs ++ (recoverStep stack trace v c').2) := by
  unfold GinRecovery
  rw [hrun]

/-- recoverStep on a non-broken-pipe (generic) value. -/
theorem recoverStep_generic (stack : Bool) (trace : String) (v : GoValue) (c : Context)
    (hv : isBrokenPipe v = false) :
    recoverStep stack trace v c =
      ({ c with status := StatusInternalServerError, statusWritten := true, aborted := true },
       [genericEntry v (c.dump.getD "") stack trace]) := by
  unfold recoverStep
  rw [hv]
  simp

/-- recoverStep on a broken-pipe value. -/
theorem recoverStep_broken (stack : Bool) (trace : String) (v : GoValue) (c : Context)
    (hv : isBrokenPipe v = true) :
    recoverStep stack trace v c =
      ({ c with errors := c.errors ++ [v], aborted := true },
       [brokenEntry c.path v (c.dump.getD "")]) := by
  unfold recoverStep
  rw [hv]
  simp

/-- GinRecovery always returns normally, whatever downstream does. -/
theorem ginRecovery_ok (stack : Bool) (trace : String) (h : Handler) (c : Context) :
    ∃ c'' logs, GinRecovery stack trace h c = (Outcome.ok c'', logs) := by
  cases hc : h c with
  | mk o logs =>
      cases o with
      | ok c' => exact ⟨c', logs, by unfold GinRecovery; rw [hc]⟩
      | panicked v c' =>
          exact ⟨(recoverStep stack trace v c').1, logs ++ (recoverStep stack trace v c').2,
            ginRecovery_panic_run stack trace h c c' v logs hc⟩

/-- A serving loop over a handler that never lets a panic escape
processes every queued request. -/
theorem serveAll_ok_length (h : Handler)
    (hok : ∀ c, ∃ c'' logs, h c = (Outcome.ok c'', logs)) :
    ∀ cs : List Context, (serveAll h cs).length = cs.length := by
  intro cs
  induction cs with
  | nil => rfl
  | cons c cs ih =>
      obtain ⟨c'', logs, hc⟩ := hok c
      simp [serveAll, hc, ih]

/-- C2: the classification is BrokenConnection if and only if the raised
value is a net.OpError whose inner cause is an os.SyscallError whose
message contains, case-insensitively, "broken pipe" or "connection reset
by peer"; every other raised value is classified Generic. -/
theorem c2_classification_characterisation (v : GoValue) :
    (classify v = Classification.brokenConnection ↔
      ∃ msg, v = GoValue.opError (GoValue.syscallError msg) ∧
        (containsLower msg "broken pipe" = true ∨
         containsLower msg "connection reset by peer" = true)) ∧
    (classify v ≠ Classification.brokenConnection →
      classify v = Classification.generic) := by
  constructor
  · rw [classify_eq_broken]
    exact isBrokenPipe_iff v
  · intro hne
    rw [classify_eq_generic]
    rcases hb : isBrokenPipe v with _ | _
    · rfl
    · exact absurd ((classify_eq_broken v).mpr hb) hne

/-- C2 witness: a syscall error reporting a broken pipe is classified
BrokenConnection, and a bare string value is classified Generic. -/
theorem c2_witness :
    classify (GoValue.opError (GoValue.syscallError "write: broken pipe")) =
      Classification.brokenConnection ∧
    classify (GoValue.strVal "broken pipe") = Classification.generic :=
  ⟨(c2_classification_characterisation _).1.mpr
      ⟨"write: broken pipe", rfl, Or.inl (by decide)⟩,
   (c2_classification_characterisation _).2 (by decide)⟩

/-- C1: when the downstream handler raises a fault classified Generic,
GinRecovery emits exactly one error-level entry with message "[Recovery
from panic]" whose fields carry the raised value and the request
snapshot, sets the response status to 500 (writing the status line and
nothing else: the body is left as the handler left it), absorbs the
fault by returning normally, and the serving loop built on it processes
every queued request. -/
theorem c1_generic_fault_recovered (stack : Bool) (trace : String) (h : Handler)
    (c c' : Context) (v : GoValue) (hlogs : List LogEntry)
    (hrun : h c = (Outcome.panicked v c', hlogs))
    (hgen : classify v = Classification.generic) :
    GinRecovery stack trace h c =
      (Outcome.ok { c' with status := StatusInternalServerError, statusWritten := true, aborted := true },
       hlogs ++ [genericEntry v (c'.dump.getD "") stack trace]) ∧
    (genericEntry v (c'.dump.getD "") stack trace).level = Level.error ∧
    (genericEntry v (c'.dump.getD "") stack trace).message = "[Recovery from panic]" ∧
    ZapField.mk "error" (FieldValue.any v) ∈
      (genericEntry v (c'.dump.getD "") stack trace).fields ∧
    ZapField.mk "request" (FieldValue.str (c'.dump.getD "")) ∈
      (genericEntry v (c'.dump.getD "") stack trace).fields ∧
    ({ c' with status := StatusInternalServerError, statusWritten := true, aborted := true } : Context).body = c'.body ∧
    ∀ cs : List Context, (serveAll (GinRecovery stack trace h) cs).length = cs.length := by
  have hv : isBrokenPipe v = false := (classify_eq_generic v).mp hgen
  have hrec := ginRecovery_panic_run stack trace h c c' v hlogs hrun
  rw [recoverStep_generic stack trace v c' hv] at hrec
  refine ⟨hrec, rfl, rfl, ?_, ?_, rfl, ?_⟩
  · cases stack <;> simp [genericEntry]
  · cases stack <;> simp [genericEntry]
  · exact serveAll_ok_length _ (fun c => ginRecovery_ok stack trace h c)

/-- C1 witness: the boom handler on the concrete request, with the stack
flag enabled. -/
theorem c1_witness :
    GinRecovery true "stacktrace" panicBoom ctx0 =
      (Outcome.ok { ctx0 with status := StatusInternalServerError, statusWritten := true, aborted := true },
       [genericEntry (GoValue.strVal "boom") "GET /hello HTTP/1.1" true "stacktrace"]) :=
  (c1_generic_fault_recovered true "stacktrace" panicBoom ctx0 ctx0
    (GoValue.strVal "boom") [] rfl (by decide)).1

/-- C3: when the fault is classified BrokenConnection, GinRecovery emits
exactly one error-level entry whose message is the request path with
exactly the fields error and request (no stack field whatever the
includeStack flag), appends the error to the gin error list (so the
errors field of the GinLogger entry can reflect it), and aborts without
writing any status line: status and statusWritten are unchanged. -/
theorem c3_broken_fault_recovered (stack : Bool) (trace : String) (h : Handler)
    (c c' : Context) (v : GoValue) (hlogs : List LogEntry)
    (hrun : h c = (Outcome.panicked v c', hlogs))
    (hbc : classify v = Classification.brokenConnection) :
    GinRecovery stack trace h c =
      (Outcome.ok { c' with errors := c'.errors ++ [v], aborted := true },
       hlogs ++ [brokenEntry c'.path v (c'.dump.getD "")]) ∧
    (brokenEntry c'.path v (c'.dump.getD "")).level = Level.error ∧
    (brokenEntry c'.path v (c'.dump.getD "")).message = c'.path ∧
    (brokenEntry c'.path v (c'.dump.getD "")).fields =
      [ZapField.mk "error" (FieldValue.any v),
       ZapField.mk "request" (FieldValue.str (c'.dump.getD ""))] ∧
    (∀ f ∈ (brokenEntry c'.path v (c'.dump.getD "")).fields, f.name ≠ "stack") ∧
    ({ c' with errors := c'.errors ++ [v], aborted := true } : Context).statusWritten = c'.statusWritten ∧
    ({ c' with errors := c'.errors ++ [v], aborted := true } : Context).status = c'.status := by
  have hv : isBrokenPipe v = true := (classify_eq_broken v).mp hbc
  have hrec := ginRecovery_panic_run stack trace h c c' v hlogs hrun
  rw [recoverStep_broken stack trace v c' hv] at hrec
  refine ⟨hrec, rfl, rfl, rfl, ?_, rfl, rfl⟩
  intro f hf
  simp [brokenEntry] at hf
  rcases hf with hf | hf <;> simp [hf]

/-- C3 witness: the broken-pipe handler on the concrete request, with the
stack flag enabled. -/
theorem c3_witness :
    GinRecovery true "stacktrace" panicPipe ctx0 =
      (Outcome.ok { ctx0 with errors := [GoValue.opError (GoValue.syscallError "write: broken pipe")], aborted := true },
       [brokenEntry "/hello" (GoValue.opError (GoValue.syscallError "write: broken pipe")) "GET /hello HTTP/1.1"]) :=
  (c3_broken_fault_recovered true "stacktrace" panicPipe ctx0 ctx0
    (GoValue.opError (GoValue.syscallError "write: broken pipe")) [] rfl (by decide)).1

/-- C8: whenever the underlying syscall error's message contains, in any
letter case, "broken pipe" or "connection reset by peer", the value is
classified BrokenConnection and GinRecovery writes no response status:
status and statusWritten are left exactly as the handler left them. -/
theorem c8_broken_pipe_message_no_status (stack : Bool) (trace : String) (h : Handler)
    (c c' : Context) (msg : String) (hlogs : List LogEntry)
    (hrun : h c = (Outcome.panicked (GoValue.opError (GoValue.syscallError msg)) c', hlogs))
    (hmsg : containsLower msg "broken pipe" = true ∨
            containsLower msg "connection reset by peer" = true) :
    classify (GoValue.opError (GoValue.syscallError msg)) = Classification.brokenConnection ∧
    GinRecovery stack trace h c =
      (Outcome.ok { c' with errors := c'.errors ++ [GoValue.opError (GoValue.syscallError msg)], aborted := true },
       hlogs ++ [brokenEntry c'.path (GoValue.opError (GoValue.syscallError msg)) (c'.dump.getD "")]) ∧
    ({ c' with errors := c'.errors ++ [GoValue.opError (GoValue.syscallError msg)], aborted := true } : Context).statusWritten = c'.statusWritten ∧
    ({ c' with errors := c'.errors ++ [GoValue.opError (GoValue.syscallError msg)], aborted := true } : Context).status = c'.status := by
  have hv : isBrokenPipe (GoValue.opError (GoValue.syscallError msg)) = true :=
    (isBrokenPipe_iff _).mpr ⟨msg, rfl, hmsg⟩
  have hrec := ginRecovery_panic_run stack trace h c c'
    (GoValue.opError (GoValue.syscallError msg)) hlogs hrun
  rw [recoverStep_broken stack trace _ c' hv] at hrec
  exact ⟨(classify_eq_broken _).mpr hv, hrec, rfl, rfl⟩

/-- C8 witness: an upper-case "BROKEN PIPE" message is matched
case-insensitively; the request context keeps its unwritten status. -/
theorem c8_witness :
    classify (GoValue.opError (GoValue.syscallError "write tcp: BROKEN PIPE")) =
      Classification.brokenConnection ∧
    GinRecovery false "stacktrace"
      (fun c => (Outcome.panicked (GoValue.opError (GoValue.syscallError "write tcp: BROKEN PIPE")) c, []))
      ctx0 =
      (Outcome.ok { ctx0 with errors := [GoValue.opError (GoValue.syscallError "write tcp: BROKEN PIPE")], aborted := true },
       [brokenEntry "/hello" (GoValue.opError (GoValue.syscallError "write tcp: BROKEN PIPE")) "GET /hello HTTP/1.1"]) ∧
    (({ ctx0 with errors := [GoValue.opError (GoValue.syscallError "write tcp: BROKEN PIPE")], aborted := true } : Context).statusWritten = ctx0.statusWritten ∧
     ({ ctx0 with errors := [GoValue.opError (GoValue.syscallError "write tcp: BROKEN PIPE")], aborted := true } : Context).status = ctx0.status) := by
  have h := c8_broken_pipe_message_no_status false "stacktrace"
    (fun c => (Outcome.panicked (GoValue.opError (GoValue.syscallError "write tcp: BROKEN PIPE")) c, []))
    ctx0 ctx0 "write tcp: BROKEN PIPE" [] rfl (Or.inl (by decide))
  exact ⟨h.1, h.2.1, h.2.2⟩

/-- C9: the snapshot capture never prevents the diagnostic entry: when
DumpRequest fails (modelled by dump = none), GinRecovery still emits its
single error entry, with an empty request field. -/
theorem c9_dump_failure_empty_snapshot (stack : Bool) (trace : String) (h : Handler)
    (c c' : Context) (v : GoValue) (hlogs : List LogEntry)
    (hrun : h c = (Outcome.panicked v c', hlogs))
    (hdump : c'.dump = none) :
    ∃ entry : LogEntry,
      GinRecovery stack trace h c =
        (Outcome.ok (recoverStep stack trace v c').1, hlogs ++ [entry]) ∧
      entry.level = Level.error ∧
      ZapField.mk "request" (FieldValue.str "") ∈ entry.fields := by
  have hrec := ginRecovery_panic_run stack trace h c c' v hlogs hrun
  rcases hv : isBrokenPipe v with _ | _
  · refine ⟨genericEntry v "" stack trace, ?_, rfl, ?_⟩
    · rw [recoverStep_generic stack trace v c' hv] at hrec ⊢
      rw [hrec, hdump]
      simp
    · cases stack <;> simp [genericEntry]
  · refine ⟨brokenEntry c'.path v "", ?_, rfl, ?_⟩
    · rw [recoverStep_broken stack trace v c' hv] at hrec ⊢
      rw [hrec, hdump]
      simp
    · simp [brokenEntry]

/-- C9 witness: the boom handler on the request whose dump failed. -/
theorem c9_witness :
    ∃ entry : LogEntry,
      GinRecovery true "stacktrace" panicBoom ctxNoDump =
        (Outcome.ok (recoverStep true "stacktrace" (GoValue.strVal "boom") ctxNoDump).1, [entry]) ∧
      entry.level = Level.error ∧
      ZapField.mk "request" (FieldValue.str "") ∈ entry.fields :=
  c9_dump_failure_empty_snapshot true "stacktrace" panicBoom ctxNoDump ctxNoDump
    (GoValue.strVal "boom") [] rfl rfl

/-- Running GinRecovery over a downstream that returns normally passes
the result through untouched. -/
theorem ginRecovery_ok_run (stack : Bool) (trace : String) (h : Handler)
    (c c' : Context) (logs : List LogEntry)
    (hrun : h c = (Outcome.ok c', logs)) :
    GinRecovery stack trace h c = (Outcome.ok c', logs) := by
  unfold GinRecovery
  rw [hrun]

/-- Running GinLogger over a downstream that returns normally appends
exactly one info entry built from the pre-captured path, query and start
time and the final context. -/
theorem ginLogger_ok_run (next : Handler) (c c' : Context) (logs : List LogEntry)
    (hrun : next c = (Outcome.ok c', logs)) :
    GinLogger next c =
      (Outcome.ok c', logs ++ [ginLoggerEntry c.path c.rawQuery c' (c'.now - c.now)]) := by
  unfold GinLogger
  rw [hrun]

/-- C4 counterexample: with the registration order of line 159 a Generic
fault inside the handler still yields the GinLogger info entry after the
recovery entry - RequestLogger's post-processing is not skipped, so
FaultRecovery does not wrap RequestLogger on the outside. -/
theorem c4_counterexample :
    ((mainDemo4Chain "stacktrace" panicBoom ctx0).2.map LogEntry.level) =
      [Level.error, Level.info] := by decide

/-- C4 (amended): in the chain composed by mainDemo4, RequestLogger wraps
FaultRecovery on the outside - GinLogger captures its start timestamp
before GinRecovery establishes the recovery boundary - so when a fault
occurs inside the handler, GinRecovery absorbs it and GinLogger's
post-processing still runs, emitting its timing entry after the recovery
entry. -/
theorem c4_logger_wraps_recovery (trace : String) (h : Handler)
    (c c' : Context) (v : GoValue) (hlogs : List LogEntry)
    (hrun : h c = (Outcome.panicked v c', hlogs)) :
    mainDemo4Chain trace h = GinLogger (GinRecovery true trace h) ∧
    GinRecovery true trace h c =
      (Outcome.ok (recoverStep true trace v c').1,
       hlogs ++ (recoverStep true trace v c').2) ∧
    mainDemo4Chain trace h c =
      (Outcome.ok (recoverStep true trace v c').1,
       hlogs ++ (recoverStep true trace v c').2 ++
         [ginLoggerEntry c.path c.rawQuery (recoverStep true trace v c').1
           ((recoverStep true trace v c').1.now - c.now)]) ∧
    (ginLoggerEntry c.path c.rawQuery (recoverStep true trace v c').1
      ((recoverStep true trace v c').1.now - c.now)).level = Level.info := by
  have hrec := ginRecovery_panic_run true trace h c c' v hlogs hrun
  exact ⟨rfl, hrec, ginLogger_ok_run (GinRecovery true trace h) c _ _ hrec, rfl⟩

/-- C4 witness: the amended ordering fact at the concrete request and
the boom handler. -/
theorem c4_amended_witness :
    mainDemo4Chain "stacktrace" panicBoom = GinLogger (GinRecovery true "stacktrace" panicBoom) ∧
    GinRecovery true "stacktrace" panicBoom ctx0 =
      (Outcome.ok (recoverStep true "stacktrace" (GoValue.strVal "boom") ctx0).1,
       [] ++ (recoverStep true "stacktrace" (GoValue.strVal "boom") ctx0).2) ∧
    mainDemo4Chain "stacktrace" panicBoom ctx0 =
      (Outcome.ok (recoverStep true "stacktrace" (GoValue.strVal "boom") ctx0).1,
       [] ++ (recoverStep true "stacktrace" (GoValue.strVal "boom") ctx0).2 ++
         [ginLoggerEntry ctx0.path ctx0.rawQuery (recoverStep true "stacktrace" (GoValue.strVal "boom") ctx0).1
           ((recoverStep true "stacktrace" (GoValue.strVal "boom") ctx0).1.now - ctx0.now)]) ∧
    (ginLoggerEntry ctx0.path ctx0.rawQuery (recoverStep true "stacktrace" (GoValue.strVal "boom") ctx0).1
      ((recoverStep true "stacktrace" (GoValue.strVal "boom") ctx0).1.now - ctx0.now)).level = Level.info :=
  c4_logger_wraps_recovery "stacktrace" panicBoom ctx0 ctx0 (GoValue.strVal "boom") [] rfl

/-- C5: per-request emission invariant of the composed chain.  On a clean
return the chain adds exactly one entry, GinLogger's info entry, and
GinRecovery adds none; on a fault the chain adds exactly one error entry
from GinRecovery followed by the one info entry from GinLogger.  In both
cases each middleware entry is appended exactly once. -/
theorem c5_log_emission_invariant (stack : Bool) (trace : String) (h : Handler) (c : Context) :
    (∀ c' hlogs, h c = (Outcome.ok c', hlogs) →
      useChain stack trace h c =
        (Outcome.ok c', hlogs ++ [ginLoggerEntry c.path c.rawQuery c' (c'.now - c.now)]) ∧
      (ginLoggerEntry c.path c.rawQuery c' (c'.now - c.now)).level = Level.info) ∧
    (∀ v c' hlogs, h c = (Outcome.panicked v c', hlogs) →
      useChain stack trace h c =
        (Outcome.ok (recoverStep stack trace v c').1,
         hlogs ++ (recoverStep stack trace v c').2 ++
           [ginLoggerEntry c.path c.rawQuery (recoverStep stack trace v c').1
             ((recoverStep stack trace v c').1.now - c.now)]) ∧
      (recoverStep stack trace v c').2.length = 1 ∧
      (ginLoggerEntry c.path c.rawQuery (recoverStep stack trace v c').1
        ((recoverStep stack trace v c').1.now - c.now)).level = Level.info ∧
      ∀ e ∈ (recoverStep stack trace v c').2, e.level = Level.error) := by
  constructor
  · intro c' hlogs hrun
    exact ⟨ginLogger_ok_run _ c c' hlogs (ginRecovery_ok_run stack trace h c c' hlogs hrun), rfl⟩
  · intro v c' hlogs hrun
    have hrec := ginRecovery_panic_run stack trace h c c' v hlogs hrun
    refine ⟨ginLogger_ok_run (GinRecovery stack trace h) c _ _ hrec, ?_, rfl, ?_⟩
    · rcases hv : isBrokenPipe v with _ | _
      · rw [recoverStep_generic stack trace v c' hv]
        rfl
      · rw [recoverStep_broken stack trace v c' hv]
        rfl
    · intro e he
      rcases hv : isBrokenPipe v with _ | _
      · rw [recoverStep_generic stack trace v c' hv] at he
        simp at he
        rw [he]
        rfl
      · rw [recoverStep_broken stack trace v c' hv] at he
        simp at he
        rw [he]
        rfl

/-- C5 witness: the clean branch of the invariant on the hello handler. -/
theorem c5_witness :
    useChain false "stacktrace" helloHandler ctx0 =
      (Outcome.ok { ctx0 with status := 200, statusWritten := true, body := ["hello!"] },
       [] ++ [ginLoggerEntry ctx0.path ctx0.rawQuery
         { ctx0 with status := 200, statusWritten := true, body := ["hello!"] }
         (({ ctx0 with status := 200, statusWritten := true, body := ["hello!"] } : Context).now - ctx0.now)]) :=
  ((c5_log_emission_invariant false "stacktrace" helloHandler ctx0).1
    { ctx0 with status := 200, statusWritten := true, body := ["hello!"] } [] rfl).1

/-- C6: the includeStack flag controls the stack field of Generic
entries: with the flag clear the emitted entry has no field named stack;
with the flag set it has a stack field holding the non-empty debug.Stack
dump. -/
theorem c6_stack_flag_controls_stack_field (stack : Bool) (trace : String) (h : Handler)
    (c c' : Context) (v : GoValue) (hlogs : List LogEntry)
    (hrun : h c = (Outcome.panicked v c', hlogs))
    (hgen : classify v = Classification.generic)
    (htrace : trace ≠ "") :
    GinRecovery stack trace h c =
      (Outcome.ok { c' with status := StatusInternalServerError, statusWritten := true, aborted := true },
       hlogs ++ [genericEntry v (c'.dump.getD "") stack trace]) ∧
    (stack = false →
      ∀ f ∈ (genericEntry v (c'.dump.getD "") false trace).fields, f.name ≠ "stack") ∧
    (stack = true →
      ∃ f ∈ (genericEntry v (c'.dump.getD "") true trace).fields,
        f.name = "stack" ∧ ∃ s, f.value = FieldValue.str s ∧ s ≠ "") := by
  have hv := (classify_eq_generic v).mp hgen
  have hrec := ginRecovery_panic_run stack trace h c c' v hlogs hrun
  rw [recoverStep_generic stack trace v c' hv] at hrec
  refine ⟨hrec, ?_, ?_⟩
  · intro _ f hf
    simp [genericEntry] at hf
    rcases hf with hf | hf <;> simp [hf]
  · intro _
    exact ⟨ZapField.mk "stack" (FieldValue.str trace), by simp [genericEntry], rfl, trace, rfl, htrace⟩

/-- C6 witness: with the flag set, the entry for the boom fault carries a
non-empty stack field. -/
theorem c6_witness :
    ∃ f ∈ (genericEntry (GoValue.strVal "boom") "GET /hello HTTP/1.1" true "stacktrace").fields,
      f.name = "stack" ∧ ∃ s, f.value = FieldValue.str s ∧ s ≠ "" :=
  (c6_stack_flag_controls_stack_field true "stacktrace" panicBoom ctx0 ctx0
    (GoValue.strVal "boom") [] rfl (by decide) (by decide)).2.2 rfl

/-- C7: for a request that completes without fault, GinLogger captures
start time, path and query before invoking downstream and afterwards
emits exactly one info entry whose fields are status (the response's
final status), method, path, query, ip, user-agent, the accumulated
private errors joined to one string (empty when there are none), and
cost = now - start, which is non-negative under the monotonic clock. -/
theorem c7_clean_request_logged (h : Handler) (c c' : Context) (hlogs : List LogEntry)
    (hrun : h c = (Outcome.ok c', hlogs))
    (hclock : c.now ≤ c'.now) :
    GinLogger h c =
      (Outcome.ok c', hlogs ++ [ginLoggerEntry c.path c.rawQuery c' (c'.now - c.now)]) ∧
    (ginLoggerEntry c.path c.rawQuery c' (c'.now - c.now)).level = Level.info ∧
    (ginLoggerEntry c.path c.rawQuery c' (c'.now - c.now)).fields =
      [ZapField.mk "status" (FieldValue.int c'.status),
       ZapField.mk "method" (FieldValue.str c'.method),
       ZapField.mk "path" (FieldValue.str c.path),
       ZapField.mk "query" (FieldValue.str c.rawQuery),
       ZapField.mk "ip" (FieldValue.str c'.clientIP),
       ZapField.mk "user-agent" (FieldValue.str c'.userAgent),
       ZapField.mk "errors" (FieldValue.str (errorsPrivateString c'.errors)),
       ZapField.mk "cost" (FieldValue.dur (c'.now - c.now))] ∧
    0 ≤ c'.now - c.now ∧
    (c'.errors = [] → errorsPrivateString c'.errors = "") := by
  refine ⟨ginLogger_ok_run h c c' hlogs hrun, rfl, rfl, sub_nonneg.mpr hclock, ?_⟩
  intro he
  rw [he]
  rfl

/-- C7 witness: the hello handler on the concrete request; cost is
10 - 10 = 0 and the status field is the final 200. -/
theorem c7_witness :
    GinLogger helloHandler ctx0 =
      (Outcome.ok { ctx0 with status := 200, statusWritten := true, body := ["hello!"] },
       [] ++ [ginLoggerEntry ctx0.path ctx0.rawQuery
         { ctx0 with status := 200, statusWritten := true, body := ["hello!"] }
         (({ ctx0 with status := 200, statusWritten := true, body := ["hello!"] } : Context).now - ctx0.now)]) :=
  (c7_clean_request_logged helloHandler ctx0
    { ctx0 with status := 200, statusWritten := true, body := ["hello!"] } [] rfl (by decide)).1

/-- C10: when the handler raises a Generic fault, the chain composed by
mainDemo4 still emits GinLogger's info entry - GinLogger is registered
outside GinRecovery, so control returns to its post-processing after the
recovery - and that entry's status field carries the 500 that GinRecovery
set before GinLogger read the writer's status. -/
theorem c10_info_entry_after_generic_fault (trace : String) (h : Handler)
    (c c' : Context) (v : GoValue) (hlogs : List LogEntry)
    (hrun : h c = (Outcome.panicked v c', hlogs))
    (hgen : classify v = Classification.generic) :
    ∃ rc : Context,
      rc.status = StatusInternalServerError ∧
      mainDemo4Chain trace h c =
        (Outcome.ok rc,
         hlogs ++ [genericEntry v (c'.dump.getD "") true trace] ++
           [ginLoggerEntry c.path c.rawQuery rc (rc.now - c.now)]) ∧
      (ginLoggerEntry c.path c.rawQuery rc (rc.now - c.now)).level = Level.info ∧
      ZapField.mk "status" (FieldValue.int StatusInternalServerError) ∈
        (ginLoggerEntry c.path c.rawQuery rc (rc.now - c.now)).fields := by
  have hv := (classify_eq_generic v).mp hgen
  have hrec := ginRecovery_panic_run true trace h c c' v hlogs hrun
  rw [recoverStep_generic true trace v c' hv] at hrec
  refine ⟨{ c' with status := StatusInternalServerError, statusWritten := true, aborted := true },
    rfl, ?_, rfl, ?_⟩
  · exact ginLogger_ok_run (GinRecovery true trace h) c _ _ hrec
  · simp [ginLoggerEntry]

/-- C10 witness: the boom handler under the mainDemo4 chain on the
concrete request. -/
theorem c10_witness :
    ∃ rc : Context,
      rc.status = StatusInternalServerError ∧
      mainDemo4Chain "stacktrace" panicBoom ctx0 =
        (Outcome.ok rc,
         [] ++ [genericEntry (GoValue.strVal "boom") (ctx0.dump.getD "") true "stacktrace"] ++
           [ginLoggerEntry ctx0.path ctx0.rawQuery rc (rc.now - ctx0.now)]) ∧
      (ginLoggerEntry ctx0.path ctx0.rawQuery rc (rc.now - ctx0.now)).level = Level.info ∧
      ZapField.mk "status" (FieldValue.int StatusInternalServerError) ∈
        (ginLoggerEntry ctx0.path ctx0.rawQuery rc (rc.now - ctx0.now)).fields :=
  c10_info_entry_after_generic_fault "stacktrace" panicBoom ctx0 ctx0
    (GoValue.strVal "boom") [] rfl (by decide)
